import Mathlib

/-!
Verification of the field-reconciliation engine in
`attached_assets/excel_import_code_fix_1751694680592.py`.

Python strings are modelled as lists of characters, Python numbers
(ints and floats) as rationals, dicts as association lists looked up
first-match, and the system clock as an explicit parameter carrying the
millisecond timestamp and the current calendar date that
`datetime.now()` would report.  Exceptions are modelled with `Except`.
-/

namespace OilPro

/-- Python strings, modelled as lists of characters. -/
abbrev PyString := List Char

/-- Conversion from a Lean string literal to the character-list model. -/
def s2l (s : String) : PyString := s.data

/-- The whitespace characters `str.strip()` removes.  Only the six ASCII
whitespace characters are modelled; no verified property involves the
further Unicode whitespace Python would also strip. -/
def isPySpace (c : Char) : Bool :=
  c = ' ' || c = '\t' || c = '\n' || c = '\x0d' || c = '\x0b' || c = '\x0c'

/-- Removal of trailing whitespace, the right half of `str.strip()`. -/
def stripRight (l : PyString) : PyString :=
  (l.reverse.dropWhile isPySpace).reverse

/-- Python `str.strip()`: drop leading and trailing whitespace. -/
def pyStrip (l : PyString) : PyString :=
  stripRight (l.dropWhile isPySpace)

/-- Python `str.lower()` (ASCII case folding). -/
def pyLower (l : PyString) : PyString := l.map Char.toLower

/-- Python `s.endswith(suffix)` for a single suffix. -/
def pyEndsWith (l suffix : PyString) : Bool := decide (suffix <:+ l)

/-- Python `tank_id.endswith(('.xlsx', '.xls', '.csv'))`, source line 22. -/
def endsWithSpreadsheetExt (l : PyString) : Bool :=
  pyEndsWith l (s2l ".xlsx") || pyEndsWith l (s2l ".xls") || pyEndsWith l (s2l ".csv")

/-- A Python `datetime.date`. -/
structure PyDate where
  year : Nat
  month : Nat
  day : Nat
deriving DecidableEq

/-- The scalar cell values a raw field bag can hold: strings, numbers
(Python ints and floats, modelled together as rationals) and date-like
objects. -/
inductive Value where
  | vStr (s : PyString)
  | vNum (q : ℚ)
  | vDate (d : PyDate)
deriving DecidableEq

/-- Python truthiness of a scalar: the empty string and zero are falsy,
every date object is truthy. -/
def Value.truthy : Value → Bool
  | .vStr s => !s.isEmpty
  | .vNum q => q != 0
  | .vDate _ => true

/-- Python `isinstance(v, str)`. -/
def Value.isStr : Value → Bool
  | .vStr _ => true
  | .vNum _ => false
  | .vDate _ => false

/-- Decimal digit string of a natural number. -/
def natDigits (n : Nat) : PyString := (Nat.repr n).data

/-- Zero-padded decimal numeral of width `w`. -/
def padNum (w n : Nat) : PyString :=
  List.replicate (w - (natDigits n).length) '0' ++ natDigits n

/-- Python `str(v)`.  Strings pass through unchanged; a date prints as its
ISO `YYYY-MM-DD` form; an integral number prints as `n.0` the way a Python
float does.  A non-integral rational is rendered as `num/den`; no verified
property depends on the rendering of a non-integral number. -/
def pyStr : Value → PyString
  | .vStr s => s
  | .vNum q =>
      if q.den = 1 then (Int.repr q.num).data ++ s2l ".0"
      else (Int.repr q.num).data ++ '/' :: natDigits q.den
  | .vDate d => padNum 4 d.year ++ '-' :: (padNum 2 d.month ++ '-' :: padNum 2 d.day)

/-- Split a list at the first character satisfying `p`: the prefix before
it and, when a split character was found, the remainder after it. -/
def breakAt (p : Char → Bool) : PyString → PyString × Option PyString
  | [] => ([], none)
  | c :: cs =>
      if p c then ([], some cs)
      else
        let r := breakAt p cs
        (c :: r.1, r.2)

/-- Numeric value of a decimal digit string, most significant digit first. -/
def digitsVal (l : PyString) : Nat :=
  l.foldl (fun a c => 10 * a + (c.toNat - 48)) 0

/-- Parse the mantissa of a Python float literal: decimal digits with an
optional decimal point, at least one digit present overall. -/
def parseMantissa (l : PyString) : Option ℚ :=
  match breakAt (fun c => c = '.') l with
  | (ip, none) =>
      if !ip.isEmpty && ip.all Char.isDigit then some ((digitsVal ip : ℚ)) else none
  | (ip, some fp) =>
      if (!ip.isEmpty || !fp.isEmpty) && ip.all Char.isDigit && fp.all Char.isDigit then
        some ((digitsVal ip : ℚ) + (digitsVal fp : ℚ) / (10 : ℚ) ^ fp.length)
      else none

/-- Optional leading sign of a float literal. -/
def parseSign : PyString → ℚ × PyString
  | '+' :: r => (1, r)
  | '-' :: r => (-1, r)
  | r => (1, r)

/-- Optional leading sign of an exponent. -/
def parseExpSign : PyString → Int × PyString
  | '+' :: r => (1, r)
  | '-' :: r => (-1, r)
  | r => (1, r)

/-- Python `float(s)` applied to a string: surrounding whitespace is
stripped, then an optional sign, a decimal mantissa and an optional
exponent are read.  `none` models the raised `ValueError`.  (The literals
`inf` and `nan` and underscore digit separators, which Python also
accepts, are not modelled and simply fail; no verified property reaches
them.) -/
def pyFloatOfStr (l0 : PyString) : Option ℚ :=
  let sp := parseSign (pyStrip l0)
  match breakAt (fun c => c = 'e' || c = 'E') sp.2 with
  | (m, none) => (parseMantissa m).map (fun q => sp.1 * q)
  | (m, some ex) =>
      let es := parseExpSign ex
      if !es.2.isEmpty && es.2.all Char.isDigit then
        (parseMantissa m).map (fun q => sp.1 * q * (10 : ℚ) ^ (es.1 * (digitsVal es.2 : Int)))
      else none

/-- Python `float(v)` on a scalar; `none` models the raised exception
(`ValueError` for an unparsable string, `TypeError` for a date). -/
def pyFloat : Value → Option ℚ
  | .vStr s => pyFloatOfStr s
  | .vNum q => some q
  | .vDate _ => none

/-- Gregorian leap years. -/
def isLeapYear (y : Nat) : Bool :=
  (y % 4 = 0 && y % 100 != 0) || y % 400 = 0

/-- Days in a month of the proleptic Gregorian calendar. -/
def daysInMonth (y m : Nat) : Nat :=
  if m = 2 then (if isLeapYear y then 29 else 28)
  else if m = 4 || m = 6 || m = 9 || m = 11 then 30
  else 31

/-- The day field of `strptime`, CPython's `%d` pattern
`3[01]|[12]\d|0[1-9]|[1-9]| [1-9]`: one or two digits with value 1 to 31,
or a space followed by a single non-zero digit (space-padded day).  Any
other day text leaves unmatched characters before the end of the string,
which `strptime` rejects. -/
def parseDayField (ds : PyString) : Option Nat :=
  match ds with
  | [' ', c] => if c.isDigit && c != '0' then some (c.toNat - 48) else none
  | _ =>
      if !ds.isEmpty && ds.all Char.isDigit && ds.length ≤ 2 &&
         1 ≤ digitsVal ds && digitsVal ds ≤ 31 then
        some (digitsVal ds)
      else none

/-- Python `datetime.strptime(s, "%Y-%m-%d").date()`, following CPython's
`_strptime` patterns: `%Y` is exactly four digits, `%m` is one or two
digits whose value must be 1 to 12 (the pattern `1[0-2]|0[1-9]|[1-9]`
matches the dash-delimited month text fully exactly in that case), `%d`
is as in `parseDayField`, the three fields are separated by literal
dashes with nothing left over, and the matched numbers must form a valid
calendar date (year at least 1, day within the month).  `none` models the
raised `ValueError`. -/
def strptimeYmd (l : PyString) : Option PyDate :=
  match breakAt (fun c => c = '-') l with
  | (ys, some rest) =>
      match breakAt (fun c => c = '-') rest with
      | (ms, some ds) =>
          if ys.length = 4 && ys.all Char.isDigit &&
             !ms.isEmpty && ms.all Char.isDigit && ms.length ≤ 2 then
            match parseDayField ds with
            | some d =>
                let y := digitsVal ys
                let m := digitsVal ms
                if 1 ≤ y && 1 ≤ m && m ≤ 12 && d ≤ daysInMonth y m then
                  some ⟨y, m, d⟩
                else none
            | none => none
          else none
      | _ => none
  | _ => none

/-- The readings the source takes from the system clock: `datetime.now()`
supplies a millisecond epoch timestamp on line 31 and the current calendar
date on lines 62 and 64. -/
structure Now where
  ms : Nat
  today : PyDate
deriving DecidableEq

/-- A raw field bag: a dict from field-name strings to scalar values,
modelled as an association list (a dict has distinct keys; lookup is
first-match). -/
abbrev RawBag := List (String × Value)

/-- Python `raw_data.get(k, dflt)`. -/
def pyGet (raw : RawBag) (k : String) (dflt : Value) : Value :=
  match raw with
  | [] => dflt
  | (k1, v) :: rest => if k1 = k then v else pyGet rest k dflt

/-- Python `raw_data[k] if k in raw_data else None`, as an option. -/
def pyGetOpt (raw : RawBag) (k : String) : Option Value :=
  match raw with
  | [] => none
  | (k1, v) :: rest => if k1 = k then some v else pyGetOpt rest k

/-- The fixed service synonym table, source lines 37 to 45. -/
def serviceMapping : List (PyString × PyString) :=
  [(s2l "crude_oil", s2l "Crude Oil"),
   (s2l "crude oil", s2l "Crude Oil"),
   (s2l "diesel", s2l "Diesel"),
   (s2l "gasoline", s2l "Gasoline"),
   (s2l "alcohol", s2l "Alcohol"),
   (s2l "fish oil and sludge oil", s2l "Fish Oil and Sludge Oil"),
   (s2l "other", s2l "Other")]

/-- First-match lookup in an association list of Python strings. -/
def lookupStr (k : PyString) : List (PyString × PyString) → Option PyString
  | [] => none
  | (k1, v) :: rest => if k1 = k then some v else lookupStr k rest

/-- Source line 46: `service_mapping.get(service.lower(), service)`. -/
def normalizeService (s : PyString) : PyString :=
  (lookupStr (pyLower s) serviceMapping).getD s

/-- The exceptions the modelled code can raise.  `attributeError m` is the
`AttributeError` raised when the string method named `m` is called on a
non-string value; `externalError m` stands for any exception raised by an
external collaborator (the pandas read, the ORM save, the ORM retrieve). -/
inductive PyErr where
  | attributeError (method : PyString)
  | externalError (msg : PyString)
deriving DecidableEq

/-- Python `str(e)`, used when building the failure dict. -/
def pyErrMsg : PyErr → PyString
  | .attributeError m => s2l "AttributeError: " ++ m
  | .externalError m => m

/-- The dict returned by `validate_and_clean_excel_data`: it always carries
exactly these twelve keys, so it is modelled as a structure. -/
@[ext] structure CleanedData where
  tank_id : PyString
  report_number : PyString
  service : PyString
  inspector : PyString
  inspection_date : Value
  diameter : ℚ
  height : ℚ
  capacity : ℚ
  year_built : ℚ
  shell_material : PyString
  roof_type : PyString
  foundation_type : PyString
deriving DecidableEq

/-- Source line 21: primary tank-identifier resolution. -/
def resolveTankPrimary (raw : RawBag) : Value :=
  pyGet raw "tank_id" (pyGet raw "Tank ID" (.vStr []))

/-- Source line 24: secondary tank-identifier fallback. -/
def resolveTankFallback (raw : RawBag) : Value :=
  pyGet raw "tank_number" (pyGet raw "unit_id" (.vStr (s2l "UNKNOWN")))

/-- Source line 28: report-number resolution. -/
def resolveReportRaw (raw : RawBag) : Value :=
  pyGet raw "report_number" (pyGet raw "Report Number" (.vStr []))

/-- Source lines 28 to 33: resolve the report number, synthesizing
`IMP-<millisecond timestamp>` when the resolved value is falsy, then
`str(...).strip()`. -/
def resolveReportNumber (raw : RawBag) (now : Now) : PyString :=
  let r := resolveReportRaw raw
  let r2 := if r.truthy then r else .vStr (s2l "IMP-" ++ natDigits now.ms)
  pyStrip (pyStr r2)

/-- Source line 36: service resolution. -/
def resolveServiceRaw (raw : RawBag) : Value :=
  pyGet raw "service" (pyGet raw "Service" (pyGet raw "product" (.vStr [])))

/-- Source lines 48 to 50: inspector resolution with the sentinel default. -/
def resolveInspector (raw : RawBag) : PyString :=
  pyStrip (pyStr (pyGet raw "inspector" (pyGet raw "Inspector" (.vStr (s2l "Unknown Inspector")))))

/-- Source line 53: key resolution for the inspection date. -/
def resolveDateRaw (raw : RawBag) : Value :=
  pyGet raw "inspection_date" (pyGet raw "Inspection Date" (.vStr []))

/-- Source lines 54 to 64: a truthy string is parsed with
`strptime(..., "%Y-%m-%d").date()`, any parse failure falling back to
today; a truthy non-string is passed through unchanged; a falsy
resolution gives today. -/
def resolveDate (v : Value) (now : Now) : Value :=
  if v.truthy then
    match v with
    | .vStr s =>
        match strptimeYmd s with
        | some d => .vDate d
        | none => .vDate now.today
    | _ => v
  else .vDate now.today

/-- Source lines 66 to 73: numeric field resolution,
`float(value) if value else 0`, with every exception collapsing to `0`. -/
def resolveNumeric (raw : RawBag) (k kTitle : String) : ℚ :=
  let v := pyGet raw k (pyGet raw kTitle (.vNum 0))
  if v.truthy then (pyFloat v).getD 0 else 0

/-- Source lines 76 to 79: text field resolution, `str(value).strip()`. -/
def resolveText (raw : RawBag) (k kTitle : String) : PyString :=
  pyStrip (pyStr (pyGet raw k (pyGet raw kTitle (.vStr []))))

/-- The record `validate_and_clean_excel_data` assembles (source lines 18
to 81) once the two string-method calls have succeeded: `t` is the
resolved primary tank identifier and `sv` the resolved service string. -/
def assembleRecord (raw : RawBag) (now : Now) (t sv : PyString) : CleanedData :=
  { tank_id :=
      if endsWithSpreadsheetExt t then pyStrip (pyStr (resolveTankFallback raw))
      else pyStrip t
    report_number := resolveReportNumber raw now
    service := normalizeService sv
    inspector := resolveInspector raw
    inspection_date := resolveDate (resolveDateRaw raw) now
    diameter := resolveNumeric raw "diameter" "Diameter"
    height := resolveNumeric raw "height" "Height"
    capacity := resolveNumeric raw "capacity" "Capacity"
    year_built := resolveNumeric raw "year_built" "Year Built"
    shell_material := resolveText raw "shell_material" "Shell Material"
    roof_type := resolveText raw "roof_type" "Roof Type"
    foundation_type := resolveText raw "foundation_type" "Foundation Type" }

/-- The reconciler `validate_and_clean_excel_data`, source lines 14 to 81.
The two string-method calls the code makes on raw values —
`tank_id.endswith` on line 22 and `service.lower()` on line 46 — raise
`AttributeError` when the resolved value is not a string; every other step
is total. -/
def validate_and_clean_excel_data (raw : RawBag) (now : Now) :
    Except PyErr CleanedData :=
  match resolveTankPrimary raw with
  | .vNum _ => .error (.attributeError (s2l "endswith"))
  | .vDate _ => .error (.attributeError (s2l "endswith"))
  | .vStr t =>
    match resolveServiceRaw raw with
    | .vNum _ => .error (.attributeError (s2l "lower"))
    | .vDate _ => .error (.attributeError (s2l "lower"))
    | .vStr sv => .ok (assembleRecord raw now t sv)

/-- The diagnostic kinds named by the specification. -/
inductive DiagKind where
  | fieldMissing
  | fieldCoercionFailed
  | invalidInput
deriving DecidableEq

/-- The diagnostics `validate_and_clean_excel_data` hands back alongside
the record.  The source returns only the cleaned dict and emits no
diagnostic of any kind — its per-field `except` blocks substitute defaults
silently — so this list is empty for every input. -/
def reconcileDiagnostics (raw : RawBag) (now : Now) : List DiagKind :=
  []

/-- The inspection object built by `create_inspection_from_excel_data`:
the constructor fields of source lines 94 to 108 plus the three special
fields attached after construction on lines 116 to 120. -/
structure Inspection where
  tank_id : PyString
  report_number : PyString
  service : PyString
  inspector : PyString
  inspection_date : Value
  diameter : ℚ
  height : ℚ
  capacity : ℚ
  year_built : ℚ
  shell_material : PyString
  roof_type : PyString
  foundation_type : PyString
  status : PyString
  findings : Option Value
  recommendations : Option Value
  notes : Option Value
deriving DecidableEq

/-- Source lines 88 to 120 of `create_inspection_from_excel_data`: clean
the data, construct the record with `status` fixed to `Draft` (no cleaned
value is Python `None`, so the line 111 filter drops nothing), then attach
`findings`, `recommendations` and `notes` from the raw bag by exact key
match when present, with their raw values unchanged. -/
def buildInspection (raw : RawBag) (now : Now) : Except PyErr Inspection :=
  match validate_and_clean_excel_data raw now with
  | .error e => .error e
  | .ok c =>
    .ok { tank_id := c.tank_id
          report_number := c.report_number
          service := c.service
          inspector := c.inspector
          inspection_date := c.inspection_date
          diameter := c.diameter
          height := c.height
          capacity := c.capacity
          year_built := c.year_built
          shell_material := c.shell_material
          roof_type := c.roof_type
          foundation_type := c.foundation_type
          status := s2l "Draft"
          findings := pyGetOpt raw "findings"
          recommendations := pyGetOpt raw "recommendations"
          notes := pyGetOpt raw "notes" }

/-- The whole of `create_inspection_from_excel_data`, source lines 83 to
136: build the record, save it, verify by re-retrieval; any exception is
logged and re-raised to the caller.  The outcomes of the persistence
collaborator are passed in as `saveResult` and `retrieveResult` (a
retrieved ORM object is always truthy, so the line 127 check never fires
on a successful retrieval). -/
def create_inspection_from_excel_data (raw : RawBag) (now : Now)
    (saveResult : Except PyErr Unit) (retrieveResult : Except PyErr Unit) :
    Except PyErr Inspection :=
  match buildInspection raw now with
  | .error e => .error e
  | .ok insp =>
    match saveResult with
    | .error e => .error e
    | .ok _ =>
      match retrieveResult with
      | .error e => .error e
      | .ok _ => .ok insp

/-- The dict returned by `process_excel_import`. -/
structure ImportResult where
  success : Bool
  inspection_id : Option Nat
  report_number : Option PyString
  error : Option PyString
  message : PyString
deriving DecidableEq

/-- Source lines 160 to 166: the failure dict. -/
def importFailure (e : PyErr) : ImportResult :=
  { success := false
    inspection_id := none
    report_number := none
    error := some (pyErrMsg e)
    message := s2l "Excel import failed. Please check the file format and try again." }

/-- `process_excel_import`, source lines 138 to 166.  Reading the
spreadsheet row is passed in as `readResult` and the database id assigned
on save as `newId`; every exception raised by any step is caught and
turned into the failure dict. -/
def process_excel_import (readResult : Except PyErr RawBag) (now : Now)
    (saveResult retrieveResult : Except PyErr Unit) (newId : Nat) : ImportResult :=
  match readResult with
  | .error e => importFailure e
  | .ok raw =>
    match create_inspection_from_excel_data raw now saveResult retrieveResult with
    | .error e => importFailure e
    | .ok insp =>
      { success := true
        inspection_id := some newId
        report_number := some insp.report_number
        error := none
        message := s2l "Successfully imported inspection " ++ insp.report_number }

/-- Re-expression of a cleaned record as a raw field bag under its
canonical keys — the very dict `validate_and_clean_excel_data` returns. -/
def toCanonicalBag (r : CleanedData) : RawBag :=
  [("tank_id", .vStr r.tank_id),
   ("report_number", .vStr r.report_number),
   ("service", .vStr r.service),
   ("inspector", .vStr r.inspector),
   ("inspection_date", r.inspection_date),
   ("diameter", .vNum r.diameter),
   ("height", .vNum r.height),
   ("capacity", .vNum r.capacity),
   ("year_built", .vNum r.year_built),
   ("shell_material", .vStr r.shell_material),
   ("roof_type", .vStr r.roof_type),
   ("foundation_type", .vStr r.foundation_type)]

/-! Auxiliary lemmas about the string primitives. -/

theorem dropWhile_head_not (p : Char → Bool) (l : PyString) :
    ∀ c ∈ (l.dropWhile p).head?, p c = false := by
  induction l with
  | nil => simp
  | cons a as ih =>
      cases h : p a with
      | true => simpa [List.dropWhile_cons, h] using ih
      | false => simp [List.dropWhile_cons, h]

theorem dropWhile_eq_self_of_head (p : Char → Bool) (l : PyString)
    (h : ∀ c ∈ l.head?, p c = false) : l.dropWhile p = l := by
  cases l with
  | nil => rfl
  | cons a as => simp [List.dropWhile_cons, h a (by simp)]

theorem dropWhile_decomp (p : Char → Bool) (l : PyString) :
    ∃ t, t ++ l.dropWhile p = l := by
  induction l with
  | nil => exact ⟨[], rfl⟩
  | cons a as ih =>
      cases h : p a with
      | false => exact ⟨[], by simp [List.dropWhile_cons, h]⟩
      | true =>
          obtain ⟨t, ht⟩ := ih
          exact ⟨a :: t, by simp [List.dropWhile_cons, h, ht]⟩

theorem stripRight_eq_self (l : PyString)
    (h : ∀ c ∈ l.reverse.head?, isPySpace c = false) : stripRight l = l := by
  unfold stripRight
  rw [dropWhile_eq_self_of_head _ _ h, List.reverse_reverse]

theorem stripRight_last_not (l : PyString) :
    ∀ c ∈ (stripRight l).reverse.head?, isPySpace c = false := by
  unfold stripRight
  rw [List.reverse_reverse]
  exact dropWhile_head_not _ _

theorem stripRight_decomp (l : PyString) : ∃ t, stripRight l ++ t = l := by
  obtain ⟨t, ht⟩ := dropWhile_decomp isPySpace l.reverse
  refine ⟨t.reverse, ?_⟩
  have h2 := congrArg List.reverse ht
  simpa [stripRight] using h2

/-- Python `strip` is idempotent. -/
theorem pyStrip_idem (l : PyString) : pyStrip (pyStrip l) = pyStrip l := by
  unfold pyStrip
  have hhead : ∀ c ∈ (l.dropWhile isPySpace).head?, isPySpace c = false :=
    dropWhile_head_not _ _
  obtain ⟨t, ht⟩ := stripRight_decomp (l.dropWhile isPySpace)
  have hdrop : (stripRight (l.dropWhile isPySpace)).dropWhile isPySpace
      = stripRight (l.dropWhile isPySpace) := by
    apply dropWhile_eq_self_of_head
    intro c hc
    apply hhead
    cases hsr : stripRight (l.dropWhile isPySpace) with
    | nil => rw [hsr] at hc; simp at hc
    | cons a as =>
        rw [hsr] at hc ht
        simp only [List.head?_cons, Option.mem_def, Option.some.injEq] at hc
        subst hc
        rw [← ht]
        simp
  rw [hdrop]
  exact stripRight_eq_self _ (stripRight_last_not _)

theorem suffix_dropWhile (p : Char → Bool) (ext : PyString)
    (hh : ∀ c ∈ ext.head?, p c = false) :
    ∀ t l, t ++ ext = l → ∃ u, u ++ ext = l.dropWhile p := by
  intro t
  induction t with
  | nil =>
      intro l hl
      subst hl
      exact ⟨[], by simp [dropWhile_eq_self_of_head p ext hh]⟩
  | cons a t2 ih =>
      intro l hl
      subst hl
      cases h : p a with
      | false => exact ⟨a :: t2, by simp [List.dropWhile_cons, h]⟩
      | true =>
          obtain ⟨u, hu⟩ := ih (t2 ++ ext) rfl
          exact ⟨u, by simpa [List.dropWhile_cons, h] using hu⟩

theorem last_of_append (t ext : PyString) (hne : ext ≠ []) :
    (t ++ ext).reverse.head? = ext.reverse.head? := by
  rw [List.reverse_append]
  cases hre : ext.reverse with
  | nil => exact absurd (by simpa using hre) hne
  | cons a as => simp

/-- A non-whitespace-delimited suffix survives `strip`. -/
theorem suffix_pyStrip (ext l : PyString) (hne : ext ≠ [])
    (hh : ∀ c ∈ ext.head?, isPySpace c = false)
    (hl : ∀ c ∈ ext.reverse.head?, isPySpace c = false)
    (hsuf : ∃ t, t ++ ext = l) : ∃ u, u ++ ext = pyStrip l := by
  obtain ⟨t, ht⟩ := hsuf
  obtain ⟨u, hu⟩ := suffix_dropWhile isPySpace ext hh t l ht
  unfold pyStrip
  rw [stripRight_eq_self]
  · exact ⟨u, hu⟩
  · rw [← hu, last_of_append u ext hne]
    exact hl

theorem pyEndsWith_iff (l suffix : PyString) :
    pyEndsWith l suffix = true ↔ ∃ t, t ++ suffix = l := by
  unfold pyEndsWith
  rw [decide_eq_true_iff]
  exact Iff.rfl

theorem forall_head_of_eq {o : Option Char} {a : Char} (h : o = some a)
    (ha : isPySpace a = false) : ∀ c ∈ o, isPySpace c = false := by
  subst h
  intro c hc
  simp only [Option.mem_def, Option.some.injEq] at hc
  subst hc
  exact ha

theorem pyEndsWith_strip_of_ext (l ext : PyString) (hne : ext ≠ [])
    (hh : ∀ c ∈ ext.head?, isPySpace c = false)
    (hl : ∀ c ∈ ext.reverse.head?, isPySpace c = false)
    (h : pyEndsWith l ext = true) : pyEndsWith (pyStrip l) ext = true := by
  rw [pyEndsWith_iff] at h ⊢
  exact suffix_pyStrip ext l hne hh hl h

/-- A spreadsheet-extension suffix survives `strip`. -/
theorem endsWithExt_pyStrip_mono (l : PyString)
    (h : endsWithSpreadsheetExt l = true) :
    endsWithSpreadsheetExt (pyStrip l) = true := by
  unfold endsWithSpreadsheetExt at h ⊢
  simp only [Bool.or_eq_true] at h ⊢
  rcases h with (h | h) | h
  · exact Or.inl (Or.inl (pyEndsWith_strip_of_ext l _ (by decide)
      (forall_head_of_eq rfl (by decide)) (forall_head_of_eq rfl (by decide)) h))
  · exact Or.inl (Or.inr (pyEndsWith_strip_of_ext l _ (by decide)
      (forall_head_of_eq rfl (by decide)) (forall_head_of_eq rfl (by decide)) h))
  · exact Or.inr (pyEndsWith_strip_of_ext l _ (by decide)
      (forall_head_of_eq rfl (by decide)) (forall_head_of_eq rfl (by decide)) h)

/-! Auxiliary lemmas about service normalization, dates and numerics. -/

theorem lookupStr_mem (k v : PyString) (m : List (PyString × PyString))
    (h : lookupStr k m = some v) : (k, v) ∈ m := by
  induction m with
  | nil => simp [lookupStr] at h
  | cons kv rest ih =>
      obtain ⟨k1, v1⟩ := kv
      rw [show lookupStr k ((k1, v1) :: rest)
          = if k1 = k then some v1 else lookupStr k rest from rfl] at h
      by_cases hk : k1 = k
      · rw [if_pos hk] at h
        injection h with h2
        subst h2
        subst hk
        exact List.mem_cons_self _ _
      · rw [if_neg hk] at h
        exact List.mem_cons_of_mem _ (ih h)

/-- Every canonical service value is a fixed point of normalization. -/
theorem serviceMapping_canonical :
    ∀ kv ∈ serviceMapping, normalizeService kv.2 = kv.2 := by decide

/-- Service normalization is idempotent. -/
theorem normalizeService_idem (s : PyString) :
    normalizeService (normalizeService s) = normalizeService s := by
  unfold normalizeService
  cases h : lookupStr (pyLower s) serviceMapping with
  | none => simp only [Option.getD_none]; rw [h]; simp
  | some v =>
      have hv : normalizeService v = v := by
        simpa using serviceMapping_canonical (pyLower s, v)
          (lookupStr_mem (pyLower s) v serviceMapping h)
      simp only [Option.getD_some]
      unfold normalizeService at hv
      exact hv

/-- Date resolution always produces a truthy non-string value. -/
theorem resolveDate_truthy (v : Value) (now : Now) :
    (resolveDate v now).truthy = true ∧ (resolveDate v now).isStr = false := by
  unfold resolveDate
  cases hv : v.truthy with
  | false => simp [Value.truthy, Value.isStr]
  | true =>
      cases v with
      | vStr s =>
          cases hp : strptimeYmd s <;> simp [hp, Value.truthy, Value.isStr]
      | vNum q => simpa [Value.isStr] using hv
      | vDate d => simp [Value.truthy, Value.isStr]

/-- A truthy non-string date value is passed through unchanged. -/
theorem resolveDate_passthrough (v : Value) (now : Now)
    (h1 : v.truthy = true) (h2 : v.isStr = false) : resolveDate v now = v := by
  unfold resolveDate
  cases v with
  | vStr s => simp [Value.isStr] at h2
  | vNum q => simp [h1]
  | vDate d => simp [h1]

/-- The string form of date resolution: both the falsy-empty branch and the
two parse branches agree with `getD now.today`. -/
theorem resolveDate_str (s : PyString) (now : Now) :
    resolveDate (.vStr s) now = .vDate ((strptimeYmd s).getD now.today) := by
  unfold resolveDate
  cases hs : s.isEmpty with
  | true =>
      have : s = [] := by simpa using hs
      subst this
      simp [Value.truthy]
      rfl
  | false =>
      simp only [Value.truthy, hs, Bool.not_false, if_true]
      cases hp : strptimeYmd s <;> simp

/-- Date resolution does not consult the clock when the value is truthy
and, if a string, parses. -/
theorem resolveDate_clock_indep (v : Value) (t1 t2 : Now)
    (h1 : v.truthy = true)
    (h2 : ∀ s, v = .vStr s → (strptimeYmd s).isSome = true) :
    resolveDate v t1 = resolveDate v t2 := by
  cases v with
  | vStr s =>
      have hp2 := h2 s rfl
      rw [resolveDate_str, resolveDate_str]
      cases hp : strptimeYmd s with
      | none => rw [hp] at hp2; simp at hp2
      | some d => simp [hp]
  | vNum q =>
      rw [resolveDate_passthrough _ _ h1 rfl, resolveDate_passthrough _ _ h1 rfl]
  | vDate d =>
      rw [resolveDate_passthrough _ _ h1 rfl, resolveDate_passthrough _ _ h1 rfl]

/-- Numeric resolution is the identity on a number already resolved. -/
theorem resolveNumeric_of_num (raw : RawBag) (k kTitle : String) (q : ℚ)
    (h : pyGet raw k (pyGet raw kTitle (.vNum 0)) = .vNum q) :
    resolveNumeric raw k kTitle = q := by
  unfold resolveNumeric
  rw [h]
  by_cases hq : q = 0
  · subst hq; simp [Value.truthy]
  · simp [Value.truthy, hq, pyFloat]

/-- Eliminate a successful run of the reconciler into its resolution shape. -/
theorem validate_ok_elim (raw : RawBag) (now : Now) (rec : CleanedData)
    (h : validate_and_clean_excel_data raw now = .ok rec) :
    ∃ t sv, resolveTankPrimary raw = .vStr t ∧ resolveServiceRaw raw = .vStr sv ∧
      rec = assembleRecord raw now t sv := by
  revert h
  unfold validate_and_clean_excel_data
  cases ht : resolveTankPrimary raw with
  | vNum q => intro h; simp at h
  | vDate d => intro h; simp at h
  | vStr t =>
      cases hs : resolveServiceRaw raw with
      | vNum q => intro h; simp at h
      | vDate d => intro h; simp at h
      | vStr sv =>
          intro h
          injection h with h2
          exact ⟨t, sv, rfl, rfl, h2.symm⟩

/-- Introduce a successful run of the reconciler from its resolution shape. -/
theorem validate_ok_intro (raw : RawBag) (now : Now) (t sv : PyString)
    (ht : resolveTankPrimary raw = .vStr t) (hs : resolveServiceRaw raw = .vStr sv) :
    validate_and_clean_excel_data raw now = .ok (assembleRecord raw now t sv) := by
  unfold validate_and_clean_excel_data
  rw [ht, hs]

/-- Every record a successful reconciliation returns has stripped string
fields, a normalization-fixed service and a truthy non-string date. -/
theorem validate_ok_shape (raw : RawBag) (now : Now) (rec : CleanedData)
    (h : validate_and_clean_excel_data raw now = .ok rec) :
    pyStrip rec.tank_id = rec.tank_id ∧
    pyStrip rec.report_number = rec.report_number ∧
    normalizeService rec.service = rec.service ∧
    pyStrip rec.inspector = rec.inspector ∧
    (rec.inspection_date.truthy = true ∧ rec.inspection_date.isStr = false) ∧
    pyStrip rec.shell_material = rec.shell_material ∧
    pyStrip rec.roof_type = rec.roof_type ∧
    pyStrip rec.foundation_type = rec.foundation_type := by
  obtain ⟨t, sv, ht, hs, rfl⟩ := validate_ok_elim raw now rec h
  refine ⟨?_, ?_, ?_, ?_, ?_, ?_, ?_, ?_⟩
  · cases he : endsWithSpreadsheetExt t <;>
      simp [assembleRecord, he, pyStrip_idem]
  · simp [assembleRecord, resolveReportNumber, pyStrip_idem]
  · simp [assembleRecord, normalizeService_idem]
  · simp [assembleRecord, resolveInspector, pyStrip_idem]
  · exact resolveDate_truthy _ _
  · simp [assembleRecord, resolveText, pyStrip_idem]
  · simp [assembleRecord, resolveText, pyStrip_idem]
  · simp [assembleRecord, resolveText, pyStrip_idem]

/-- A sample clock reading used by the concrete test cases. -/
def now0 : Now := ⟨1700, ⟨2023, 11, 14⟩⟩

/-- A second, different sample clock reading. -/
def now1 : Now := ⟨1800, ⟨2024, 1, 2⟩⟩

/-! Claim C1. -/

/-- Counterexample to C1 as stated: a raw bag whose tank-identifier value
is a number — a scalar type the claim explicitly includes — makes
`validate_and_clean_excel_data` raise `AttributeError`, because source
line 22 calls `.endswith` on the resolved value unconditionally. -/
theorem c1_counterexample :
    validate_and_clean_excel_data [("tank_id", Value.vNum 5)] now0
      = .error (.attributeError (s2l "endswith")) := rfl

/-- C1 (amended): reconciliation terminates and returns a cleaned record
without raising whenever the values resolved for the tank-identifier keys
and for the service keys are strings — in particular whenever those keys
are absent; numeric, date and text fields may hold any scalar of any type
without causing a raise. -/
theorem c1_no_raise_for_string_identifiers (raw : RawBag) (now : Now)
    (ht : (resolveTankPrimary raw).isStr = true)
    (hs : (resolveServiceRaw raw).isStr = true) :
    ∃ rec, validate_and_clean_excel_data raw now = .ok rec := by
  cases hdt : resolveTankPrimary raw with
  | vNum q => rw [hdt] at ht; simp [Value.isStr] at ht
  | vDate d => rw [hdt] at ht; simp [Value.isStr] at ht
  | vStr t =>
      cases hds : resolveServiceRaw raw with
      | vNum q => rw [hds] at hs; simp [Value.isStr] at hs
      | vDate d => rw [hds] at hs; simp [Value.isStr] at hs
      | vStr sv => exact ⟨_, validate_ok_intro raw now t sv hdt hds⟩

/-- Witness for C1: a bag with a numeric diameter, an unparsable date and
missing identifiers reconciles successfully. -/
theorem c1_witness :
    ∃ rec, validate_and_clean_excel_data
      [("diameter", Value.vStr (s2l "abc")), ("inspection_date", Value.vStr (s2l "nope"))]
      now0 = .ok rec :=
  c1_no_raise_for_string_identifiers _ now0 rfl rfl

/-! Claim C2. -/

/-- Counterexample to C2 as stated: the empty bag yields an empty tank_id
(the claim requires it non-empty), and a bag whose secondary identifier
field is itself filename-like yields a tank_id that ends in a spreadsheet
extension (the claim forbids it on every reconciliation). -/
theorem c2_counterexample :
    (validate_and_clean_excel_data [] now0).toOption.map CleanedData.tank_id
      = some [] ∧
    (validate_and_clean_excel_data
        [("tank_id", Value.vStr (s2l "a.xlsx")), ("tank_number", Value.vStr (s2l "b.xlsx"))]
        now0).toOption.map CleanedData.tank_id = some (s2l "b.xlsx") ∧
    endsWithSpreadsheetExt (s2l "b.xlsx") = true :=
  ⟨rfl, rfl, by decide⟩

/-- C2 (amended): whenever the resolved primary tank identifier is a
string that, after trimming, is non-empty and does not end in `.xlsx`,
`.xls` or `.csv`, the produced record's tank_id is a non-empty string not
ending in a spreadsheet file extension.  (When no identifier key resolves
the tank_id is the empty string, and when the filename check fires the
fallback value is used verbatim and may itself end in an extension.) -/
theorem c2_tank_id_invariant (raw : RawBag) (now : Now) (s : PyString)
    (rec : CleanedData)
    (hres : resolveTankPrimary raw = .vStr s)
    (hne : pyStrip s ≠ [])
    (hext : endsWithSpreadsheetExt (pyStrip s) = false)
    (h : validate_and_clean_excel_data raw now = .ok rec) :
    rec.tank_id ≠ [] ∧ endsWithSpreadsheetExt rec.tank_id = false := by
  obtain ⟨t, sv, ht, hs, rfl⟩ := validate_ok_elim raw now rec h
  rw [hres] at ht
  injection ht with ht2
  subst ht2
  have hs0 : endsWithSpreadsheetExt s = false := by
    cases he : endsWithSpreadsheetExt s with
    | false => rfl
    | true => rw [endsWithExt_pyStrip_mono s he] at hext; simp at hext
  constructor
  · simpa [assembleRecord, hs0] using hne
  · simpa [assembleRecord, hs0] using hext

/-- Witness for C2: an identifier that needs trimming and is not
filename-like gives a non-empty extension-free tank_id. -/
theorem c2_witness :
    ∃ rec, validate_and_clean_excel_data
        [("tank_id", Value.vStr (s2l " T-7 "))] now0 = .ok rec ∧
      rec.tank_id ≠ [] ∧ endsWithSpreadsheetExt rec.tank_id = false := by
  refine ⟨_, rfl, ?_⟩
  exact c2_tank_id_invariant [("tank_id", Value.vStr (s2l " T-7 "))] now0 (s2l " T-7 ") _
    rfl (by decide) (by decide) rfl

/-! Claim C3. -/

/-- Counterexample to C3 as stated: for `diameter: "abc"` the code does
set the diameter to zero, but the reconciliation returns no diagnostics at
all — the exception handler on source lines 70 to 73 substitutes the
default silently — so no `FieldCoercionFailed` entry accompanies the
record. -/
theorem c3_counterexample :
    (validate_and_clean_excel_data [("diameter", Value.vStr (s2l "abc"))] now0).toOption.map
      CleanedData.diameter = some 0 ∧
    DiagKind.fieldCoercionFailed ∉
      reconcileDiagnostics [("diameter", Value.vStr (s2l "abc"))] now0 :=
  ⟨rfl, by simp [reconcileDiagnostics]⟩

/-- C3 (amended): for an input whose `diameter` holds the non-numeric
string `"abc"`, the output record has diameter `0.0`; the code returns
only the cleaned record, and the diagnostics accompanying a
reconciliation are the empty list — no diagnostic of any kind is
emitted. -/
theorem c3_numeric_default_without_diagnostics :
    (validate_and_clean_excel_data [("diameter", Value.vStr (s2l "abc"))] now0).toOption.map
      CleanedData.diameter = some 0 ∧
    reconcileDiagnostics [("diameter", Value.vStr (s2l "abc"))] now0 = [] :=
  ⟨rfl, rfl⟩

/-! Claim C4. -/

/-- C4: when the resolved tank identifier ends with `.xlsx`, `.xls` or
`.csv`, the record's tank_id is the trimmed string form of
`raw_data.get('tank_number', raw_data.get('unit_id', 'UNKNOWN'))`;
concretely, `{tank_id: "sheet1.xlsx", tank_number: "T-42"}` yields
`"T-42"`, and `{tank_id: "sheet1.xlsx"}` alone yields `"UNKNOWN"`. -/
theorem c4_tank_id_fallback_chain :
    (∀ (raw : RawBag) (now : Now) (s : PyString) (rec : CleanedData),
        resolveTankPrimary raw = .vStr s →
        endsWithSpreadsheetExt s = true →
        validate_and_clean_excel_data raw now = .ok rec →
        rec.tank_id = pyStrip (pyStr (resolveTankFallback raw))) ∧
    (validate_and_clean_excel_data
        [("tank_id", Value.vStr (s2l "sheet1.xlsx")), ("tank_number", Value.vStr (s2l "T-42"))]
        now0).toOption.map CleanedData.tank_id = some (s2l "T-42") ∧
    (validate_and_clean_excel_data [("tank_id", Value.vStr (s2l "sheet1.xlsx"))]
        now0).toOption.map CleanedData.tank_id = some (s2l "UNKNOWN") := by
  refine ⟨?_, rfl, rfl⟩
  intro raw now s rec hres hext h
  obtain ⟨t, sv, ht, hs, rfl⟩ := validate_ok_elim raw now rec h
  rw [hres] at ht
  injection ht with ht2
  subst ht2
  simp [assembleRecord, hext]

/-- Witness for C4: the general fallback equation applied at
`{tank_id: "sheet1.xlsx"}`. -/
theorem c4_witness :
    ∃ rec, validate_and_clean_excel_data
        [("tank_id", Value.vStr (s2l "sheet1.xlsx"))] now0 = .ok rec ∧
      rec.tank_id = pyStrip (pyStr (resolveTankFallback
        [("tank_id", Value.vStr (s2l "sheet1.xlsx"))])) := by
  refine ⟨_, rfl, ?_⟩
  exact c4_tank_id_fallback_chain.1 [("tank_id", Value.vStr (s2l "sheet1.xlsx"))] now0
    (s2l "sheet1.xlsx") _ rfl (by decide) rfl

/-! Claim C5. -/

/-- C5: the special fields `findings`, `recommendations` and `notes` are
carried from the raw bag by exact key match only and attached after the
record's primary construction with their raw values unchanged: each is
present on the record iff its exact key is present in the bag;
`{findings: "cracked weld"}` yields a record with exactly that findings
value and no recommendations or notes set. -/
theorem c5_special_fields_carry_through :
    (∀ (raw : RawBag) (now : Now) (insp : Inspection),
        buildInspection raw now = .ok insp →
        insp.findings = pyGetOpt raw "findings" ∧
        insp.recommendations = pyGetOpt raw "recommendations" ∧
        insp.notes = pyGetOpt raw "notes") ∧
    (buildInspection [("findings", Value.vStr (s2l "cracked weld"))] now0).toOption.map
        (fun i => (i.findings, i.recommendations, i.notes))
      = some (some (Value.vStr (s2l "cracked weld")), none, none) := by
  refine ⟨?_, rfl⟩
  intro raw now insp h
  revert h
  unfold buildInspection
  cases hv : validate_and_clean_excel_data raw now with
  | error e => intro h; simp at h
  | ok c =>
      intro h
      injection h with h2
      subst h2
      exact ⟨rfl, rfl, rfl⟩

/-- Witness for C5: the general carry-through equations applied at
`{findings: "cracked weld"}`. -/
theorem c5_witness :
    ∃ insp, buildInspection [("findings", Value.vStr (s2l "cracked weld"))] now0 = .ok insp ∧
      insp.findings = pyGetOpt [("findings", Value.vStr (s2l "cracked weld"))] "findings" ∧
      insp.recommendations
        = pyGetOpt [("findings", Value.vStr (s2l "cracked weld"))] "recommendations" ∧
      insp.notes = pyGetOpt [("findings", Value.vStr (s2l "cracked weld"))] "notes" := by
  refine ⟨_, rfl, ?_⟩
  exact c5_special_fields_carry_through.1
    [("findings", Value.vStr (s2l "cracked weld"))] now0 _ rfl

/-! Claim C6. -/

/-- Counterexample to C6 as stated: two runs of reconciliation on the same
(equal) input bag return records that differ, because the synthesized
report number embeds the millisecond clock reading of the run. -/
theorem c6_counterexample :
    (validate_and_clean_excel_data [] now0).toOption.map CleanedData.report_number
      = some (s2l "IMP-1700") ∧
    (validate_and_clean_excel_data [] now1).toOption.map CleanedData.report_number
      = some (s2l "IMP-1800") ∧
    (validate_and_clean_excel_data [] now0).toOption.map CleanedData.report_number
      ≠ (validate_and_clean_excel_data [] now1).toOption.map CleanedData.report_number :=
  ⟨rfl, rfl, by decide⟩

/-- C6 (amended): reconciliation is a pure function of the input bag and
the clock reading — runs with equal bags and equal clock readings agree,
and input mutation is not representable, the transformation being pure —
and whenever the bag supplies a truthy report number and an inspection
date that does not fall back to the clock (truthy and, if a string,
parsing as `YYYY-MM-DD`), two runs at arbitrary clock readings return
identical records.  Without those conditions the two clock-dependent
fields may differ between runs. -/
theorem c6_clock_independence (raw : RawBag) (t1 t2 : Now)
    (hrep : (resolveReportRaw raw).truthy = true)
    (hd1 : (resolveDateRaw raw).truthy = true)
    (hd2 : ∀ s, resolveDateRaw raw = .vStr s → (strptimeYmd s).isSome = true) :
    validate_and_clean_excel_data raw t1 = validate_and_clean_excel_data raw t2 := by
  unfold validate_and_clean_excel_data
  cases ht : resolveTankPrimary raw with
  | vNum q => rfl
  | vDate d => rfl
  | vStr t =>
      cases hs : resolveServiceRaw raw with
      | vNum q => rfl
      | vDate d => rfl
      | vStr sv =>
          have hrn : resolveReportNumber raw t1 = resolveReportNumber raw t2 := by
            simp only [resolveReportNumber, hrep, if_true]
          have hdt : resolveDate (resolveDateRaw raw) t1
              = resolveDate (resolveDateRaw raw) t2 :=
            resolveDate_clock_indep _ t1 t2 hd1 hd2
          unfold assembleRecord
          rw [hrn, hdt]

/-- Witness for C6: a bag carrying a report number and a parseable date
reconciles identically at two different clock readings. -/
theorem c6_witness :
    validate_and_clean_excel_data
        [("report_number", Value.vStr (s2l "R-9")),
         ("inspection_date", Value.vStr (s2l "2021-06-15"))] now0
      = validate_and_clean_excel_data
        [("report_number", Value.vStr (s2l "R-9")),
         ("inspection_date", Value.vStr (s2l "2021-06-15"))] now1 := by
  apply c6_clock_independence
  · rfl
  · rfl
  · intro s hs
    rw [show resolveDateRaw
        [("report_number", Value.vStr (s2l "R-9")),
         ("inspection_date", Value.vStr (s2l "2021-06-15"))]
        = Value.vStr (s2l "2021-06-15") from rfl] at hs
    injection hs with h2
    subst h2
    rfl

/-! Claim C7. -/

/-- C7: the resolved service string is lowercased and looked up in the
fixed synonym table, values with no entry passing through with their
original casing; `{service: "crude_oil"}`, `{Service: "crude oil"}` and
`{service: "Crude Oil"}` all yield `"Crude Oil"`. -/
theorem c7_service_normalization :
    (∀ (raw : RawBag) (now : Now) (sv : PyString) (rec : CleanedData),
        resolveServiceRaw raw = .vStr sv →
        validate_and_clean_excel_data raw now = .ok rec →
        rec.service = (lookupStr (pyLower sv) serviceMapping).getD sv) ∧
    (validate_and_clean_excel_data [("service", Value.vStr (s2l "crude_oil"))]
        now0).toOption.map CleanedData.service = some (s2l "Crude Oil") ∧
    (validate_and_clean_excel_data [("Service", Value.vStr (s2l "crude oil"))]
        now0).toOption.map CleanedData.service = some (s2l "Crude Oil") ∧
    (validate_and_clean_excel_data [("service", Value.vStr (s2l "Crude Oil"))]
        now0).toOption.map CleanedData.service = some (s2l "Crude Oil") := by
  refine ⟨?_, rfl, rfl, rfl⟩
  intro raw now sv rec hres h
  obtain ⟨t, sv2, ht, hs, rfl⟩ := validate_ok_elim raw now rec h
  rw [hres] at hs
  injection hs with h2
  subst h2
  simp [assembleRecord, normalizeService]

/-- Witness for C7: the general normalization equation applied at
`{service: "CRUDE_OIL"}`. -/
theorem c7_witness :
    ∃ rec, validate_and_clean_excel_data [("service", Value.vStr (s2l "CRUDE_OIL"))] now0
        = .ok rec ∧
      rec.service
        = (lookupStr (pyLower (s2l "CRUDE_OIL")) serviceMapping).getD (s2l "CRUDE_OIL") := by
  refine ⟨_, rfl, ?_⟩
  exact c7_service_normalization.1 [("service", Value.vStr (s2l "CRUDE_OIL"))] now0
    (s2l "CRUDE_OIL") _ rfl rfl

/-! Claim C8. -/

/-- C8: the inspection date is resolved by parsing string values against
the single format `YYYY-MM-DD`, any parse failure — and the absent-key
default, the empty string — falling back to the date the reconciliation
ran; a truthy non-string date-like value is passed through unchanged;
concretely `inspection_date: "13/45/2021"` yields the current date, and an
absent date also yields the current date. -/
theorem c8_date_resolution :
    (∀ (raw : RawBag) (now : Now) (rec : CleanedData),
        validate_and_clean_excel_data raw now = .ok rec →
        (∀ s, resolveDateRaw raw = .vStr s →
            rec.inspection_date = .vDate ((strptimeYmd s).getD now.today)) ∧
        ((resolveDateRaw raw).truthy = true → (resolveDateRaw raw).isStr = false →
            rec.inspection_date = resolveDateRaw raw)) ∧
    (validate_and_clean_excel_data [("inspection_date", Value.vStr (s2l "13/45/2021"))]
        now0).toOption.map CleanedData.inspection_date = some (.vDate now0.today) ∧
    (validate_and_clean_excel_data [] now0).toOption.map CleanedData.inspection_date
      = some (.vDate now0.today) := by
  refine ⟨?_, rfl, rfl⟩
  intro raw now rec h
  obtain ⟨t, sv, ht, hs, rfl⟩ := validate_ok_elim raw now rec h
  constructor
  · intro s hsd
    have hfield : (assembleRecord raw now t sv).inspection_date
        = resolveDate (resolveDateRaw raw) now := rfl
    rw [hfield, hsd, resolveDate_str]
  · intro h1 h2
    have hfield : (assembleRecord raw now t sv).inspection_date
        = resolveDate (resolveDateRaw raw) now := rfl
    rw [hfield, resolveDate_passthrough _ _ h1 h2]

/-- Witness for C8: the general parse equation applied at
`{inspection_date: "2021-06-15"}`. -/
theorem c8_witness :
    ∃ rec, validate_and_clean_excel_data
        [("inspection_date", Value.vStr (s2l "2021-06-15"))] now0 = .ok rec ∧
      rec.inspection_date = .vDate ((strptimeYmd (s2l "2021-06-15")).getD now0.today) := by
  refine ⟨_, rfl, ?_⟩
  exact (c8_date_resolution.1 [("inspection_date", Value.vStr (s2l "2021-06-15"))] now0
    _ rfl).1 (s2l "2021-06-15") rfl

/-! Claim C9. -/

/-- Key resolutions over a canonical re-expression of a record. -/
theorem canonicalTank (r : CleanedData) :
    resolveTankPrimary (toCanonicalBag r) = .vStr r.tank_id := rfl

theorem canonicalService (r : CleanedData) :
    resolveServiceRaw (toCanonicalBag r) = .vStr r.service := rfl

theorem canonicalReport (r : CleanedData) :
    resolveReportRaw (toCanonicalBag r) = .vStr r.report_number := rfl

theorem canonicalInspector (r : CleanedData) :
    pyGet (toCanonicalBag r) "inspector"
      (pyGet (toCanonicalBag r) "Inspector" (.vStr (s2l "Unknown Inspector")))
      = .vStr r.inspector := rfl

theorem canonicalDate (r : CleanedData) :
    resolveDateRaw (toCanonicalBag r) = r.inspection_date := rfl

/-- Counterexample to C9 as stated: a record whose tank_id came from a
filename-like secondary identifier is not a fixed point — re-reconciling
it under canonical keys rejects its own tank_id and falls to `UNKNOWN`. -/
theorem c9_counterexample :
    (validate_and_clean_excel_data
        [("tank_id", Value.vStr (s2l "x.xlsx")), ("tank_number", Value.vStr (s2l "y.xlsx")),
         ("report_number", Value.vStr (s2l "R-1"))] now0).toOption.map CleanedData.tank_id
      = some (s2l "y.xlsx") ∧
    ((validate_and_clean_excel_data
        [("tank_id", Value.vStr (s2l "x.xlsx")), ("tank_number", Value.vStr (s2l "y.xlsx")),
         ("report_number", Value.vStr (s2l "R-1"))] now0).toOption.bind (fun rec =>
        (validate_and_clean_excel_data (toCanonicalBag rec) now0).toOption.map
          CleanedData.tank_id))
      = some (s2l "UNKNOWN") ∧
    s2l "y.xlsx" ≠ s2l "UNKNOWN" :=
  ⟨rfl, rfl, by decide⟩

/-- C9 (amended): reconciliation is idempotent on every record whose
tank_id does not end in a spreadsheet extension and whose report number is
non-empty: feeding such a record back in under its canonical keys, at any
clock reading, returns it unchanged.  (A record with a filename-like
tank_id — possible only via the secondary-identifier fallback — is mapped
to `UNKNOWN` on the second pass, and a whitespace-only report number
collapses to empty and is re-synthesized from the clock.) -/
theorem c9_idempotence (raw : RawBag) (t1 t2 : Now) (rec : CleanedData)
    (h : validate_and_clean_excel_data raw t1 = .ok rec)
    (hext : endsWithSpreadsheetExt rec.tank_id = false)
    (hrep : rec.report_number ≠ []) :
    validate_and_clean_excel_data (toCanonicalBag rec) t2 = .ok rec := by
  obtain ⟨st, sr, ss, si, ⟨sd1, sd2⟩, sm, sro, sf⟩ := validate_ok_shape raw t1 rec h
  have hrepb : rec.report_number.isEmpty = false := by
    cases hx : rec.report_number with
    | nil => exact absurd hx hrep
    | cons a as => rfl
  rw [validate_ok_intro (toCanonicalBag rec) t2 rec.tank_id rec.service
    (canonicalTank rec) (canonicalService rec)]
  congr 1
  apply CleanedData.ext
  · simp [assembleRecord, hext, st]
  · simp [assembleRecord, resolveReportNumber, canonicalReport, Value.truthy,
      hrepb, pyStr, sr]
  · simpa [assembleRecord] using ss
  · simp [assembleRecord, resolveInspector, canonicalInspector, pyStr, si]
  · simp only [assembleRecord]
    rw [canonicalDate, resolveDate_passthrough _ _ sd1 sd2]
  · exact resolveNumeric_of_num (toCanonicalBag rec) "diameter" "Diameter" rec.diameter rfl
  · exact resolveNumeric_of_num (toCanonicalBag rec) "height" "Height" rec.height rfl
  · exact resolveNumeric_of_num (toCanonicalBag rec) "capacity" "Capacity" rec.capacity rfl
  · exact resolveNumeric_of_num (toCanonicalBag rec) "year_built" "Year Built" rec.year_built rfl
  · rw [show (assembleRecord (toCanonicalBag rec) t2 rec.tank_id rec.service).shell_material
        = pyStrip rec.shell_material from rfl]
    exact sm
  · rw [show (assembleRecord (toCanonicalBag rec) t2 rec.tank_id rec.service).roof_type
        = pyStrip rec.roof_type from rfl]
    exact sro
  · rw [show (assembleRecord (toCanonicalBag rec) t2 rec.tank_id rec.service).foundation_type
        = pyStrip rec.foundation_type from rfl]
    exact sf

/-- Witness for C9: a well-formed record round-trips unchanged at a
different clock reading. -/
theorem c9_witness :
    ∃ rec, validate_and_clean_excel_data
        [("tank_id", Value.vStr (s2l "T-1")), ("report_number", Value.vStr (s2l "R-1"))] now0
        = .ok rec ∧
      validate_and_clean_excel_data (toCanonicalBag rec) now1 = .ok rec := by
  refine ⟨_, rfl, ?_⟩
  exact c9_idempotence
    [("tank_id", Value.vStr (s2l "T-1")), ("report_number", Value.vStr (s2l "R-1"))]
    now0 now1 _ rfl (by decide) (by decide)

/-! Claim C10. -/

/-- C10: `process_excel_import` always returns a result dict and never
propagates an exception: a raise while reading, and any raise re-raised by
`create_inspection_from_excel_data` (cleaning, saving, or read-back
verification), maps to the failure dict, which has success false and
carries the error string; on success the result has success true together
with the new inspection id and the created record's report number. -/
theorem c10_import_result_contract
    (readResult : Except PyErr RawBag) (now : Now)
    (saveResult retrieveResult : Except PyErr Unit) (newId : Nat) :
    (∀ e, readResult = .error e →
        process_excel_import readResult now saveResult retrieveResult newId
          = importFailure e) ∧
    (∀ raw e, readResult = .ok raw →
        create_inspection_from_excel_data raw now saveResult retrieveResult = .error e →
        process_excel_import readResult now saveResult retrieveResult newId
          = importFailure e) ∧
    (∀ raw insp, readResult = .ok raw →
        create_inspection_from_excel_data raw now saveResult retrieveResult = .ok insp →
        (process_excel_import readResult now saveResult retrieveResult newId).success
            = true ∧
        (process_excel_import readResult now saveResult retrieveResult newId).inspection_id
            = some newId ∧
        (process_excel_import readResult now saveResult retrieveResult newId).report_number
            = some insp.report_number ∧
        (process_excel_import readResult now saveResult retrieveResult newId).error
            = none) ∧
    (∀ e, (importFailure e).success = false ∧ (importFailure e).error
        = some (pyErrMsg e)) := by
  refine ⟨?_, ?_, ?_, ?_⟩
  · intro e he
    subst he
    rfl
  · intro raw e hr hc
    subst hr
    unfold process_excel_import
    dsimp only
    rw [hc]
  · intro raw insp hr hc
    subst hr
    unfold process_excel_import
    dsimp only
    rw [hc]
    exact ⟨rfl, rfl, rfl, rfl⟩
  · intro e
    exact ⟨rfl, rfl⟩

/-- Witness for C10: a raising spreadsheet read maps to the failure dict. -/
theorem c10_witness :
    process_excel_import (.error (.externalError (s2l "read failed"))) now0
        (.ok ()) (.ok ()) 1
      = importFailure (.externalError (s2l "read failed")) :=
  (c10_import_result_contract (.error (.externalError (s2l "read failed"))) now0
    (.ok ()) (.ok ()) 1).1 (.externalError (s2l "read failed")) rfl

end OilPro
